import Mathlib

/-!
Verification of the AccessWash support core (service request lifecycle,
priority/SLA calculator, validator, assignment, comments, timeline,
statistics) against `support/models.py`, `support/serializers.py`,
`support/views.py` and `support/admin.py`.

Time is modelled as an integer number of hours; each operation is one
atomic unit of work, so every call to `timezone.now()` inside a single
operation returns the same instant.  Persisted state after a
`save(update_fields=…)` call contains exactly the listed fields; the
in-memory recomputation of `priority_score` inside `save` writes the same
value back whenever `urgency` and `issue_type` are unchanged, so the
persisted-state model below is exact.
-/

namespace AccessWash

/-- Instants, in hours. -/
abbrev Time := Int

/-- `ISSUE_TYPES` of `ServiceRequest` (closed enum). -/
inductive IssueType where
  | no_water
  | low_pressure
  | pipe_burst
  | water_quality
  | meter_problem
  | billing_inquiry
  | connection_request
  | disconnection
  | other
deriving DecidableEq, Repr

/-- `URGENCY_LEVELS` of `ServiceRequest` (closed enum). -/
inductive Urgency where
  | emergency
  | high
  | standard
  | low
deriving DecidableEq, Repr

/-- `STATUS_CHOICES` of `ServiceRequest` (closed enum); `open_` embeds the
source status string `open`, which is a reserved word in Lean. -/
inductive Status where
  | open_
  | acknowledged
  | assigned
  | in_progress
  | on_hold
  | resolved
  | closed
  | cancelled
deriving DecidableEq, Repr

/-- Customer identity from the external portal app (`portal.Customer`):
opaque id plus the display name returned by `get_full_name`. -/
structure Customer where
  id : Nat
  full_name : String
deriving DecidableEq, Repr

/-- Staff identity from the external users app (`users.User`). -/
structure Staff where
  id : Nat
  full_name : String
deriving DecidableEq, Repr

/-- Persisted columns of `ServiceRequest` used by the verified operations.
`location_coordinates` stores the `(lng, lat)` pair of the GIS `Point`. -/
structure Request where
  request_number : String
  customer : Customer
  assigned_to : Option Staff
  issue_type : IssueType
  title : String
  description : String
  urgency : Urgency
  reported_location : String
  location_coordinates : Option (Rat × Rat)
  status : Status
  priority_score : Int
  resolution_notes : String
  resolution_category : String
  customer_rating : Option Int
  customer_feedback : String
  created_at : Option Time
  updated_at : Time
  assigned_at : Option Time
  acknowledged_at : Option Time
  resolved_at : Option Time
  closed_at : Option Time
  target_response_time : Option Time
  target_resolution_time : Option Time
  actual_response_time : Option Time
deriving DecidableEq, Repr

/-- `urgency_weights` table of `_calculate_priority_score`. -/
def urgencyWeight : Urgency → Int
  | .emergency => 100
  | .high => 75
  | .standard => 50
  | .low => 25

/-- `issue_weights` table of `_calculate_priority_score`. -/
def issueWeight : IssueType → Int
  | .no_water => 30
  | .pipe_burst => 25
  | .low_pressure => 20
  | .water_quality => 20
  | .meter_problem => 15
  | .billing_inquiry => 10
  | .connection_request => 15
  | .disconnection => 10
  | .other => 10

/-- `ServiceRequest._calculate_priority_score`: the `.get` defaults (50 and
10) are unreachable because both enums are closed. -/
def calculatePriorityScore (r : Request) : Int :=
  urgencyWeight r.urgency + issueWeight r.issue_type

/-- `response_times` table of `_calculate_target_response_time`, in hours. -/
def responseOffset : Urgency → Int
  | .emergency => 1
  | .high => 4
  | .standard => 24
  | .low => 72

/-- `resolution_times` table of `_calculate_target_resolution_time`, in
hours (3 days = 72 h, 7 days = 168 h). -/
def resolutionOffset : Urgency → Int
  | .emergency => 4
  | .high => 24
  | .standard => 72
  | .low => 168

/-- `base_time = self.created_at if self.created_at else timezone.now()`. -/
def Request.baseTime (r : Request) (now : Time) : Time :=
  r.created_at.getD now

/-- `ServiceRequest._calculate_target_response_time`. -/
def calculateTargetResponseTime (r : Request) (base : Time) : Time :=
  base + responseOffset r.urgency

/-- `ServiceRequest._calculate_target_resolution_time`. -/
def calculateTargetResolutionTime (r : Request) (base : Time) : Time :=
  base + resolutionOffset r.urgency

/-- Little-endian decimal digits, with explicit fuel so that the function
reduces by structural recursion. -/
def digitsRevF : Nat → Nat → List Nat
  | 0, _ => []
  | fuel + 1, n => if n = 0 then [] else n % 10 :: digitsRevF fuel (n / 10)

/-- Little-endian decimal digits of `n` (empty for `0`); `n` itself is
always enough fuel because the argument shrinks by a factor of ten. -/
def digitsRev (n : Nat) : List Nat := digitsRevF n n

/-- Decimal rendering of a natural number, as Python `str` does. -/
def decString (n : Nat) : String :=
  if n = 0 then "0" else String.mk ((digitsRev n).reverse.map Nat.digitChar)

/-- Python format `f'SR-(year)-(count:05d)'` pads the sequence with zeros to
a minimum width of five digits. -/
def pad5 (n : Nat) : String :=
  let s := decString n
  if s.length < 5 then String.mk (List.replicate (5 - s.length) '0' ++ s.data) else s

/-- The generated request number `SR-<year>-<5-digit sequence>`. -/
def requestNumber (year : Nat) (seq : Nat) : String :=
  "SR-" ++ decString year ++ "-" ++ pad5 seq

/-- Python `str.startswith`, on code points. -/
def pyStartsWith (s pre : String) : Bool :=
  pre.data.isPrefixOf s.data

/-- The `ServiceRequest.objects.filter(request_number__startswith=f'SR-(year)').count()`
query, over a store of persisted requests. -/
def countYear (year : Nat) (store : List Request) : Nat :=
  store.countP (fun r => pyStartsWith r.request_number ("SR-" ++ decString year))

/-- `ServiceRequest.save` on a full (no `update_fields`) save: generate the
request number if missing, recompute the priority score, fill the SLA
targets if unset, then let `auto_now_add`/`auto_now` stamp
`created_at`/`updated_at`.  `countSameYear` is what the year-count query
returns against the current store. -/
def Request.save (r : Request) (year : Nat) (countSameYear : Nat) (now : Time) : Request :=
  let r1 := if r.request_number = "" then
    { r with request_number := requestNumber year (countSameYear + 1) } else r
  let r2 := { r1 with priority_score := calculatePriorityScore r1 }
  let r3 := if r2.target_response_time = none then
    { r2 with target_response_time := some (calculateTargetResponseTime r2 (r2.baseTime now)) }
    else r2
  let r4 := if r3.target_resolution_time = none then
    { r3 with target_resolution_time := some (calculateTargetResolutionTime r3 (r3.baseTime now)) }
    else r3
  { r4 with created_at := some (r4.created_at.getD now), updated_at := now }

/-- Error taxonomy of the exposed operations (spec §7 vocabulary; the
source view layer only ever produces `validationError` payloads). -/
inductive OpError where
  | validationError (msg : String)
  | invalidTransition
  | alreadyAssigned
deriving DecidableEq, Repr

/-- `ServiceRequest.acknowledge`: guarded on `status == 'open'`; persists
`status`, `acknowledged_at`, `actual_response_time`, `updated_at`.  The
method raises nothing: outside `open` it returns normally with the request
untouched. -/
def Request.acknowledge (r : Request) (now : Time) : Except OpError Request :=
  if r.status = Status.open_ then
    Except.ok { r with
      status := Status.acknowledged
      acknowledged_at := some now
      actual_response_time := some now
      updated_at := now }
  else
    Except.ok r

/-- `ServiceRequest.assign_to_staff`: unguarded; persists `assigned_to`,
`assigned_at`, `status`, `updated_at`. -/
def Request.assign_to_staff (r : Request) (user : Staff) (now : Time) : Except OpError Request :=
  Except.ok { r with
    assigned_to := some user
    assigned_at := some now
    status := Status.assigned
    updated_at := now }

/-- `ServiceRequest.resolve`: persists `status`, `resolved_at`,
`resolution_notes`, `resolution_category`, `updated_at`; empty-string
arguments (falsy in Python) leave the stored notes/category alone. -/
def Request.resolve (r : Request) (notes category : String) (now : Time) : Except OpError Request :=
  Except.ok { r with
    status := Status.resolved
    resolved_at := some now
    resolution_notes := if notes ≠ "" then notes else r.resolution_notes
    resolution_category := if category ≠ "" then category else r.resolution_category
    updated_at := now }

/-- `ServiceRequest.close`: persists `status`, `closed_at`, `updated_at`. -/
def Request.close (r : Request) (now : Time) : Except OpError Request :=
  Except.ok { r with
    status := Status.closed
    closed_at := some now
    updated_at := now }

/-- `ServiceRequestViewSet.rate`: status must be `resolved`/`closed`, the
rating must be truthy and within 1..5; on success
`save(update_fields=['customer_rating', 'customer_feedback'])` persists
only those two columns (in particular `updated_at` is not rewritten). -/
def rateRequest (r : Request) (rating : Int) (feedback : String) : Except OpError Request :=
  if r.status = Status.resolved ∨ r.status = Status.closed then
    if rating = 0 ∨ ¬(1 ≤ rating ∧ rating ≤ 5) then
      Except.error (OpError.validationError "Rating must be between 1 and 5")
    else
      Except.ok { r with customer_rating := some rating, customer_feedback := feedback }
  else
    Except.error (OpError.validationError "Can only rate resolved or closed requests")

/-- Persisted columns of `ServiceRequestComment`: the author is one of two
mutually-exclusive nullable references. -/
structure Comment where
  author_customer : Option Customer
  author_staff : Option Staff
  comment : String
  is_internal : Bool
  status_changed_from : String
  status_changed_to : String
  created_at : Time
deriving DecidableEq, Repr

/-- `ServiceRequestComment.get_author_name`. -/
def Comment.get_author_name (c : Comment) : String :=
  match c.author_customer with
  | some cu => cu.full_name
  | none =>
    match c.author_staff with
    | some st => st.full_name
    | none => "Unknown"

/-- `ServiceRequestComment.get_author_type`. -/
def Comment.get_author_type (c : Comment) : String :=
  match c.author_customer with
  | some _ => "customer"
  | none =>
    match c.author_staff with
    | some _ => "staff"
    | none => "unknown"

/-- Ordering relation used by `.order_by('created_at')` on comments. -/
def commentLE (a b : Comment) : Prop := a.created_at ≤ b.created_at

instance : DecidableRel commentLE := fun a b => by
  unfold commentLE; infer_instance

instance : IsTotal Comment commentLE := ⟨fun a b => Int.le_total a.created_at b.created_at⟩

instance : IsTrans Comment commentLE := ⟨fun _ _ _ => Int.le_trans⟩

/-- `ServiceRequestDetailSerializer.get_comments`: the customer-facing
comment listing — non-internal comments ordered by `created_at`. -/
def get_comments (comments : List Comment) : List Comment :=
  (comments.filter (fun c => !c.is_internal)).insertionSort commentLE

/-- One entry of the reconstructed timeline. -/
structure TimelineEvent where
  event : String
  title : String
  description : String
  timestamp : Time
  actor : String
  actor_type : String
deriving DecidableEq, Repr

/-- Ordering relation of `timeline.sort(key=lambda x: x['timestamp'])`. -/
def eventLE (a b : TimelineEvent) : Prop := a.timestamp ≤ b.timestamp

instance : DecidableRel eventLE := fun a b => by
  unfold eventLE; infer_instance

instance : IsTotal TimelineEvent eventLE := ⟨fun a b => Int.le_total a.timestamp b.timestamp⟩

instance : IsTrans TimelineEvent eventLE := ⟨fun _ _ _ => Int.le_trans⟩

/-- The timeline entry built for one non-internal comment. -/
def commentEvent (c : Comment) : TimelineEvent :=
  { event := "comment"
    title := "Comment from " ++ c.get_author_name
    description := if c.comment.length > 100 then c.comment.take 100 ++ "..." else c.comment
    timestamp := c.created_at
    actor := c.get_author_name
    actor_type := c.get_author_type }

/-- The unsorted event list assembled by
`ServiceRequestDetailSerializer.get_timeline` before its final
`timeline.sort(...)`: synthetic events for creation, acknowledgment,
assignment, resolution, closure, plus one entry per non-internal comment.
`created_at` of a persisted request is always set, and the one unset case
falls back to the update stamp so the projection stays total. -/
def timelineEvents (r : Request) (comments : List Comment) : List TimelineEvent :=
  let tl : List TimelineEvent :=
    [{ event := "created"
       title := "Request Created"
       description := "Service request " ++ r.request_number ++ " was created"
       timestamp := r.created_at.getD r.updated_at
       actor := r.customer.full_name
       actor_type := "customer" }]
  let tl := tl ++ (match r.acknowledged_at with
    | some t =>
      [{ event := "acknowledged"
         title := "Request Acknowledged"
         description := "Your request has been received and acknowledged"
         timestamp := t
         actor := "Support Team"
         actor_type := "staff" }]
    | none => [])
  let tl := tl ++ (match r.assigned_at, r.assigned_to with
    | some t, some st =>
      [{ event := "assigned"
         title := "Request Assigned"
         description := "Request assigned to " ++ st.full_name
         timestamp := t
         actor := st.full_name
         actor_type := "staff" }]
    | _, _ => [])
  let tl := tl ++ (match r.resolved_at with
    | some t =>
      [{ event := "resolved"
         title := "Request Resolved"
         description := "Your request has been resolved"
         timestamp := t
         actor := match r.assigned_to with
           | some st => st.full_name
           | none => "Support Team"
         actor_type := "staff" }]
    | none => [])
  let tl := tl ++ (match r.closed_at with
    | some t =>
      [{ event := "closed"
         title := "Request Closed"
         description := "Request has been closed"
         timestamp := t
         actor := "System"
         actor_type := "system" }]
    | none => [])
  tl ++ (comments.filter (fun c => !c.is_internal)).map commentEvent

/-- `ServiceRequestDetailSerializer.get_timeline`: the assembled events
sorted ascending by timestamp (`timeline.sort(key=lambda x: x['timestamp'])`). -/
def get_timeline (r : Request) (comments : List Comment) : List TimelineEvent :=
  (timelineEvents r comments).insertionSort eventLE

/-- Python `str.strip`: drop whitespace from both ends, on code points
(`String.trim` behaves identically but is byte-indexed and does not reduce
inside the kernel). -/
def pyStrip (s : String) : String :=
  String.mk ((s.data.dropWhile Char.isWhitespace).reverse.dropWhile Char.isWhitespace).reverse

/-- Intake fields accepted by `ServiceRequestCreateSerializer`. -/
structure CreateInput where
  issue_type : IssueType
  title : String
  description : String
  urgency : Option Urgency
  reported_location : String
  latitude : Option Rat
  longitude : Option Rat
deriving DecidableEq, Repr

/-- The draft handed to `create` once validation passed. -/
structure ValidatedCreate where
  issue_type : IssueType
  title : String
  description : String
  urgency : Urgency
  reported_location : String
  location_coordinates : Option (Rat × Rat)
deriving DecidableEq, Repr

/-- The per-field validators `validate_title`, `validate_description`,
`validate_reported_location`; DRF runs all of them and collects the
failures keyed by field. -/
def fieldErrors (inp : CreateInput) : List (String × String) :=
  (if (pyStrip inp.title).length < 5 then
    [("title", "Title must be at least 5 characters long.")] else []) ++
  (if (pyStrip inp.description).length < 10 then
    [("description", "Description must be at least 10 characters long.")] else []) ++
  (if (pyStrip inp.reported_location).length < 5 then
    [("reported_location", "Please provide a more detailed location description.")] else [])

/-- `ServiceRequestCreateSerializer` validation: field validators, then the
object-level `validate` which converts and bounds-checks the coordinate
pair only when both `latitude` and `longitude` are supplied.  The missing
`urgency` defaults to the model default `standard`. -/
def validateCreate (inp : CreateInput) : Except (List (String × String)) ValidatedCreate :=
  if fieldErrors inp ≠ [] then
    Except.error (fieldErrors inp)
  else
    match inp.latitude, inp.longitude with
    | some lat, some lng =>
      if ¬(-5 ≤ lat ∧ lat ≤ 5) then
        Except.error [("non_field_errors", "Latitude must be within Kenya boundaries.")]
      else if ¬(33 ≤ lng ∧ lng ≤ 42) then
        Except.error [("non_field_errors", "Longitude must be within Kenya boundaries.")]
      else
        Except.ok
          { issue_type := inp.issue_type
            title := pyStrip inp.title
            description := pyStrip inp.description
            urgency := inp.urgency.getD Urgency.standard
            reported_location := pyStrip inp.reported_location
            location_coordinates := some (lng, lat) }
    | _, _ =>
      Except.ok
        { issue_type := inp.issue_type
          title := pyStrip inp.title
          description := pyStrip inp.description
          urgency := inp.urgency.getD Urgency.standard
          reported_location := pyStrip inp.reported_location
          location_coordinates := none }

/-- The fresh unsaved `ServiceRequest` instance built from a validated
draft (model-field defaults for everything the serializer does not set). -/
def draftRequest (cust : Customer) (v : ValidatedCreate) (now : Time) : Request :=
  { request_number := ""
    customer := cust
    assigned_to := none
    issue_type := v.issue_type
    title := v.title
    description := v.description
    urgency := v.urgency
    reported_location := v.reported_location
    location_coordinates := v.location_coordinates
    status := Status.open_
    priority_score := 0
    resolution_notes := ""
    resolution_category := ""
    customer_rating := none
    customer_feedback := ""
    created_at := none
    updated_at := now
    assigned_at := none
    acknowledged_at := none
    resolved_at := none
    closed_at := none
    target_response_time := none
    target_resolution_time := none
    actual_response_time := none }

/-- `ServiceRequestViewSet.create`: validate (`is_valid(raise_exception=True)`),
then `serializer.save()` which runs `ServiceRequest.save` and persists the
new row; on failure nothing is persisted and the store is returned
untouched. -/
def createRequest (store : List Request) (cust : Customer) (inp : CreateInput)
    (year : Nat) (now : Time) : Except (List (String × String)) Request × List Request :=
  match validateCreate inp with
  | Except.error e => (Except.error e, store)
  | Except.ok v =>
    let r := (draftRequest cust v now).save year (countYear year store) now
    (Except.ok r, store ++ [r])

/-- The customer-facing counts of `ServiceRequestViewSet.statistics`. -/
structure Stats where
  total_requests : Nat
  open_requests : Nat
  resolved_requests : Nat
  recent_updates : Nat
deriving DecidableEq, Repr

/-- `ServiceRequestViewSet.statistics`: counts over the customer's
requests; the trailing window is 30 days = 720 hours. -/
def statistics (store : List Request) (cust : Customer) (now : Time) : Stats :=
  { total_requests := (store.filter (fun r => r.customer = cust)).length
    open_requests := (store.filter (fun r => r.customer = cust ∧
      (r.status = Status.open_ ∨ r.status = Status.acknowledged ∨
       r.status = Status.assigned ∨ r.status = Status.in_progress))).length
    resolved_requests := (store.filter (fun r => r.customer = cust ∧
      (r.status = Status.resolved ∨ r.status = Status.closed))).length
    recent_updates := (store.filter (fun r => r.customer = cust ∧
      now - 720 ≤ r.updated_at)).length }

/-- `ServiceRequestAdmin.assign_to_me`: iterate over the selection filtered
by `assigned_to__isnull=True` and call `assign_to_staff` on each; returns
the updated selection and the reported count.  Already-assigned rows are
silently skipped. -/
def assign_to_me (user : Staff) (queryset : List Request) (now : Time) :
    List Request × Nat :=
  (queryset.map (fun r =>
      if r.assigned_to = none then
        match r.assign_to_staff user now with
        | Except.ok r' => r'
        | Except.error _ => r
      else r),
   (queryset.filter (fun r => r.assigned_to = none)).length)

/-- One lifecycle/thread operation applied to a persisted request, tagged
with enough arguments to replay the source call. -/
inductive Op where
  | ackOp
  | assignOp (staff : Staff)
  | resolveOp (notes category : String)
  | closeOp
  | rateOp (rating : Int) (feedback : String)
  | resaveOp (year : Nat) (countSameYear : Nat)
deriving DecidableEq, Repr

/-- Replay one operation: a raised error leaves the persisted row
untouched (every guard in the source fires before any write). -/
def applyOp (r : Request) (op : Op) (now : Time) : Request :=
  match op with
  | Op.ackOp =>
    match r.acknowledge now with
    | Except.ok r' => r'
    | Except.error _ => r
  | Op.assignOp st =>
    match r.assign_to_staff st now with
    | Except.ok r' => r'
    | Except.error _ => r
  | Op.resolveOp notes category =>
    match r.resolve notes category now with
    | Except.ok r' => r'
    | Except.error _ => r
  | Op.closeOp =>
    match r.close now with
    | Except.ok r' => r'
    | Except.error _ => r
  | Op.rateOp rating feedback =>
    match rateRequest r rating feedback with
    | Except.ok r' => r'
    | Except.error _ => r
  | Op.resaveOp year c => r.save year c now

/-- Replay a whole history of timed operations. -/
def applyOps (r : Request) (ops : List (Op × Time)) : Request :=
  ops.foldl (fun s p => applyOp s p.1 p.2) r

/-! ### Helper lemmas about validation and the save hook -/

theorem validateCreate_ok_fields (inp : CreateInput) (v : ValidatedCreate)
    (h : validateCreate inp = Except.ok v) :
    v.issue_type = inp.issue_type ∧ v.urgency = inp.urgency.getD Urgency.standard ∧
    v.title = pyStrip inp.title ∧ v.description = pyStrip inp.description ∧
    v.reported_location = pyStrip inp.reported_location := by
  unfold validateCreate at h
  split at h
  · exact absurd h (by simp)
  · split at h
    · split at h
      · exact absurd h (by simp)
      · split at h
        · exact absurd h (by simp)
        · cases h
          simp
    · cases h
      simp

theorem save_spec (r : Request) (year c : Nat) (now : Time) :
    (r.save year c now).priority_score = calculatePriorityScore r ∧
    (r.save year c now).urgency = r.urgency ∧
    (r.save year c now).issue_type = r.issue_type ∧
    (r.save year c now).target_response_time =
      (if r.target_response_time = none then
        some (r.baseTime now + responseOffset r.urgency) else r.target_response_time) ∧
    (r.save year c now).target_resolution_time =
      (if r.target_resolution_time = none then
        some (r.baseTime now + resolutionOffset r.urgency) else r.target_resolution_time) ∧
    (r.save year c now).created_at = some (r.created_at.getD now) ∧
    (r.save year c now).updated_at = now ∧
    (r.save year c now).request_number =
      (if r.request_number = "" then requestNumber year (c + 1) else r.request_number) ∧
    (r.save year c now).status = r.status ∧
    (r.save year c now).customer = r.customer := by
  unfold Request.save
  dsimp only
  split <;> split <;> split <;>
    simp_all [calculatePriorityScore, calculateTargetResponseTime,
      calculateTargetResolutionTime, Request.baseTime]

/-- The creation-time invariant: the stored priority score agrees with the
calculator and both SLA targets are set. -/
def FrozenInv (r : Request) : Prop :=
  r.priority_score = calculatePriorityScore r ∧
  r.target_response_time ≠ none ∧ r.target_resolution_time ≠ none

theorem applyOp_frozen (r : Request) (op : Op) (t : Time) (h : FrozenInv r) :
    FrozenInv (applyOp r op t) ∧
    (applyOp r op t).priority_score = r.priority_score ∧
    (applyOp r op t).target_response_time = r.target_response_time ∧
    (applyOp r op t).target_resolution_time = r.target_resolution_time := by
  obtain ⟨h1, h2, h3⟩ := h
  cases op with
  | ackOp =>
    by_cases hs : r.status = Status.open_ <;>
      simp_all [applyOp, Request.acknowledge, FrozenInv, calculatePriorityScore]
  | assignOp st =>
    simp_all [applyOp, Request.assign_to_staff, FrozenInv, calculatePriorityScore]
  | resolveOp notes category =>
    simp_all [applyOp, Request.resolve, FrozenInv, calculatePriorityScore]
  | closeOp =>
    simp_all [applyOp, Request.close, FrozenInv, calculatePriorityScore]
  | rateOp rating feedback =>
    by_cases hs : r.status = Status.resolved ∨ r.status = Status.closed <;>
      by_cases hr : rating = 0 ∨ ¬(1 ≤ rating ∧ rating ≤ 5) <;>
      simp_all [applyOp, rateRequest, FrozenInv, calculatePriorityScore]
  | resaveOp year c =>
    obtain ⟨p1, p2, p3, p4, p5, -, -, -, -, -⟩ := save_spec r year c t
    rw [if_neg h2] at p4
    rw [if_neg h3] at p5
    have hcalc : calculatePriorityScore (r.save year c t) = calculatePriorityScore r := by
      unfold calculatePriorityScore
      rw [p2, p3]
    refine ⟨⟨?_, ?_, ?_⟩, ?_, ?_, ?_⟩ <;>
      simp_all [applyOp]

theorem applyOps_cons (r : Request) (p : Op × Time) (ops : List (Op × Time)) :
    applyOps r (p :: ops) = applyOps (applyOp r p.1 p.2) ops := rfl

theorem applyOps_frozen (ops : List (Op × Time)) (r : Request) (h : FrozenInv r) :
    FrozenInv (applyOps r ops) ∧
    (applyOps r ops).priority_score = r.priority_score ∧
    (applyOps r ops).target_response_time = r.target_response_time ∧
    (applyOps r ops).target_resolution_time = r.target_resolution_time := by
  induction ops generalizing r with
  | nil => exact ⟨h, rfl, rfl, rfl⟩
  | cons p ps ih =>
    obtain ⟨hi, e1, e2, e3⟩ := applyOp_frozen r p.1 p.2 h
    obtain ⟨hi', f1, f2, f3⟩ := ih (applyOp r p.1 p.2) hi
    rw [applyOps_cons]
    exact ⟨hi', f1.trans e1, f2.trans e2, f3.trans e3⟩

theorem createRequest_ok (store : List Request) (cust : Customer) (inp : CreateInput)
    (year : Nat) (now : Time) (r : Request) (s' : List Request)
    (h : createRequest store cust inp year now = (Except.ok r, s')) :
    ∃ v, validateCreate inp = Except.ok v ∧
      r = (draftRequest cust v now).save year (countYear year store) now ∧
      s' = store ++ [r] := by
  unfold createRequest at h
  cases hv : validateCreate inp with
  | error e => rw [hv] at h; simp at h
  | ok v =>
    rw [hv] at h
    simp only [Prod.mk.injEq] at h
    obtain ⟨h1, h2⟩ := h
    cases h1
    exact ⟨v, rfl, rfl, h2.symm⟩

/-! ### Concrete data used by the witnesses -/

def wCust : Customer := { id := 1, full_name := "Jane Customer" }

def wStaff : Staff := { id := 7, full_name := "Sam Staff" }

def wInp : CreateInput :=
  { issue_type := IssueType.no_water
    title := "No water at home"
    description := "There has been no water for two days"
    urgency := some Urgency.emergency
    reported_location := "12 Riverside Drive"
    latitude := none
    longitude := none }

/-- The request persisted by `createRequest [] wCust wInp 2025 10`. -/
def wReq : Request :=
  { request_number := "SR-2025-00001"
    customer := wCust
    assigned_to := none
    issue_type := IssueType.no_water
    title := "No water at home"
    description := "There has been no water for two days"
    urgency := Urgency.emergency
    reported_location := "12 Riverside Drive"
    location_coordinates := none
    status := Status.open_
    priority_score := 130
    resolution_notes := ""
    resolution_category := ""
    customer_rating := none
    customer_feedback := ""
    created_at := some 10
    updated_at := 10
    assigned_at := none
    acknowledged_at := none
    resolved_at := none
    closed_at := none
    target_response_time := some 11
    target_resolution_time := some 14
    actual_response_time := none }

theorem wReq_create : createRequest [] wCust wInp 2025 10 = (Except.ok wReq, [wReq]) := by
  rfl

/-! ### C1 -/

/-- C1: for every `(issueType, urgency)` pair a created request gets
`priority_score = urgency_weight + issue_weight` with the fixed tables
`emergency = 100, high = 75, standard = 50, low = 25` and `no_water = 30,
pipe_burst = 25, low_pressure = 20, water_quality = 20, meter_problem = 15,
connection_request = 15, billing_inquiry = 10, disconnection = 10,
other = 10`; in particular `no_water` with `emergency` yields 130. -/
theorem priority_score_equals_table_sum
    (store : List Request) (cust : Customer) (inp : CreateInput)
    (year : Nat) (now : Time) (r : Request) (s' : List Request)
    (h : createRequest store cust inp year now = (Except.ok r, s')) :
    r.priority_score =
      urgencyWeight (inp.urgency.getD Urgency.standard) + issueWeight inp.issue_type ∧
    (urgencyWeight Urgency.emergency = 100 ∧ urgencyWeight Urgency.high = 75 ∧
     urgencyWeight Urgency.standard = 50 ∧ urgencyWeight Urgency.low = 25) ∧
    (issueWeight IssueType.no_water = 30 ∧ issueWeight IssueType.pipe_burst = 25 ∧
     issueWeight IssueType.low_pressure = 20 ∧ issueWeight IssueType.water_quality = 20 ∧
     issueWeight IssueType.meter_problem = 15 ∧ issueWeight IssueType.connection_request = 15 ∧
     issueWeight IssueType.billing_inquiry = 10 ∧ issueWeight IssueType.disconnection = 10 ∧
     issueWeight IssueType.other = 10) ∧
    (inp.issue_type = IssueType.no_water → inp.urgency = some Urgency.emergency →
      r.priority_score = 130) := by
  obtain ⟨v, hv, hr, -⟩ := createRequest_ok store cust inp year now r s' h
  obtain ⟨f1, f2, -, -, -⟩ := validateCreate_ok_fields inp v hv
  obtain ⟨p1, -⟩ := save_spec (draftRequest cust v now) year (countYear year store) now
  have hp : r.priority_score = urgencyWeight v.urgency + issueWeight v.issue_type := by
    rw [hr, p1]; rfl
  refine ⟨?_, ⟨rfl, rfl, rfl, rfl⟩, ⟨rfl, rfl, rfl, rfl, rfl, rfl, rfl, rfl, rfl⟩, ?_⟩
  · rw [hp, f1, f2]
  · intro hi hu
    rw [hp, f1, f2, hi, hu]
    rfl

/-- Witness for C1: the concrete `no_water`/`emergency` creation yields a
stored priority score of 130. -/
theorem priority_score_equals_table_sum_witness : wReq.priority_score = 130 := by
  have h := priority_score_equals_table_sum [] wCust wInp 2025 10 wReq [wReq] wReq_create
  exact h.2.2.2 rfl rfl

/-! ### C2 -/

/-- C2: both SLA targets equal `created_at` plus the fixed per-urgency
offset (`1h/4h/24h/72h` response, `4h/24h/3d/7d` resolution), are computed
once at creation, and no later operation — acknowledge, assign, resolve,
close, rate, or any re-save — changes `priority_score`,
`target_response_time` or `target_resolution_time`, while every status
transition stamps `updated_at` with the transition time. -/
theorem sla_deadlines_fixed_at_creation
    (store : List Request) (cust : Customer) (inp : CreateInput)
    (year : Nat) (now : Time) (r : Request) (s' : List Request)
    (h : createRequest store cust inp year now = (Except.ok r, s')) :
    (r.created_at = some now ∧
     r.target_response_time = some (now + responseOffset (inp.urgency.getD Urgency.standard)) ∧
     r.target_resolution_time = some (now + resolutionOffset (inp.urgency.getD Urgency.standard))) ∧
    (responseOffset Urgency.emergency = 1 ∧ responseOffset Urgency.high = 4 ∧
     responseOffset Urgency.standard = 24 ∧ responseOffset Urgency.low = 72 ∧
     resolutionOffset Urgency.emergency = 4 ∧ resolutionOffset Urgency.high = 24 ∧
     resolutionOffset Urgency.standard = 72 ∧ resolutionOffset Urgency.low = 168) ∧
    (∀ ops : List (Op × Time),
      (applyOps r ops).priority_score = r.priority_score ∧
      (applyOps r ops).target_response_time = r.target_response_time ∧
      (applyOps r ops).target_resolution_time = r.target_resolution_time) ∧
    (∀ (q : Request) (t : Time) (st : Staff) (notes category : String),
      (applyOp q (Op.assignOp st) t).updated_at = t ∧
      (applyOp q (Op.resolveOp notes category) t).updated_at = t ∧
      (applyOp q Op.closeOp t).updated_at = t ∧
      (q.status = Status.open_ → (applyOp q Op.ackOp t).updated_at = t)) := by
  obtain ⟨v, hv, hr, -⟩ := createRequest_ok store cust inp year now r s' h
  obtain ⟨-, f2, -, -, -⟩ := validateCreate_ok_fields inp v hv
  obtain ⟨p1, p2, p3, p4, p5, p6, -⟩ :=
    save_spec (draftRequest cust v now) year (countYear year store) now
  simp [draftRequest, Request.baseTime] at p4 p5 p6
  have hresp : r.target_response_time = some (now + responseOffset v.urgency) := by
    rw [hr]; exact p4
  have hresol : r.target_resolution_time = some (now + resolutionOffset v.urgency) := by
    rw [hr]; exact p5
  have hca : r.created_at = some now := by rw [hr]; exact p6
  have hfrozen : FrozenInv r := by
    refine ⟨?_, ?_, ?_⟩
    · rw [hr, p1]
      unfold calculatePriorityScore
      rw [p2, p3]
    · rw [hresp]; simp
    · rw [hresol]; simp
  refine ⟨⟨hca, by rw [hresp, f2], by rw [hresol, f2]⟩,
    ⟨rfl, rfl, rfl, rfl, rfl, rfl, rfl, rfl⟩, ?_, ?_⟩
  · intro ops
    exact (applyOps_frozen ops r hfrozen).2
  · intro q t st notes category
    refine ⟨rfl, rfl, rfl, ?_⟩
    intro hq
    simp [applyOp, Request.acknowledge, hq]

/-- Witness for C2 at the concrete creation: targets are `created_at + 1h`
and `created_at + 4h`, and stay fixed across a later acknowledge/close. -/
theorem sla_deadlines_fixed_at_creation_witness :
    wReq.created_at = some 10 ∧ wReq.target_response_time = some 11 ∧
    wReq.target_resolution_time = some 14 ∧
    (applyOps wReq [(Op.ackOp, 12), (Op.closeOp, 20)]).target_resolution_time =
      wReq.target_resolution_time ∧
    (applyOp wReq Op.ackOp 12).updated_at = 12 := by
  have h := sla_deadlines_fixed_at_creation [] wCust wInp 2025 10 wReq [wReq] wReq_create
  refine ⟨h.1.1, ?_, ?_, (h.2.2.1 _).2.2, (h.2.2.2 wReq 12 wStaff "" "").2.2.2 rfl⟩
  · rw [h.1.2.1]; rfl
  · rw [h.1.2.2]; rfl

/-! ### C3, C4, C5 -/

instance {ε α : Type} [DecidableEq ε] [DecidableEq α] : DecidableEq (Except ε α) := fun x y =>
  match x, y with
  | Except.ok a, Except.ok b =>
    if h : a = b then Decidable.isTrue (by rw [h])
    else Decidable.isFalse (fun hh => h (Except.ok.inj hh))
  | Except.error a, Except.error b =>
    if h : a = b then Decidable.isTrue (by rw [h])
    else Decidable.isFalse (fun hh => h (Except.error.inj hh))
  | Except.ok _, Except.error _ => Decidable.isFalse (fun hh => Except.noConfusion hh)
  | Except.error _, Except.ok _ => Decidable.isFalse (fun hh => Except.noConfusion hh)

def wStaff2 : Staff := { id := 8, full_name := "Ann Agent" }

def wReqResolved : Request :=
  { wReq with status := Status.resolved, resolved_at := some 30, updated_at := 30 }

def wReqAssigned : Request :=
  { wReq with
    assigned_to := some wStaff
    assigned_at := some 15
    status := Status.assigned
    updated_at := 15 }

def wReqRated : Request :=
  { wReqResolved with customer_rating := some 5, customer_feedback := "great" }

/-- C3 counterexample: on a request whose status is `resolved`,
`acknowledge` returns normally with the request completely unchanged — it
does not signal `InvalidTransition` (no such signal exists in the code). -/
theorem acknowledge_no_invalid_transition_signal :
    wReqResolved.status ≠ Status.open_ ∧
    wReqResolved.acknowledge 40 = Except.ok wReqResolved ∧
    wReqResolved.acknowledge 40 ≠ Except.error OpError.invalidTransition := by
  refine ⟨by decide, rfl, by decide⟩

/-- C3 (amended): `acknowledge()` on an `open` request sets the status to
`acknowledged`, stamps `acknowledged_at = now` and sets
`actual_response_time` to the same instant; on a request in any other
status it is a silent no-op — it returns normally, leaving the status, all
timestamps and every other field unchanged, and raises no error. -/
theorem acknowledge_open_only (r : Request) (now : Time) :
    (r.status = Status.open_ →
      r.acknowledge now = Except.ok { r with
        status := Status.acknowledged
        acknowledged_at := some now
        actual_response_time := some now
        updated_at := now }) ∧
    (r.status ≠ Status.open_ → r.acknowledge now = Except.ok r) := by
  constructor <;> intro h <;> simp [Request.acknowledge, h]

/-- Witness for the amended C3: the open request is acknowledged with both
stamps set to the call time; the resolved request comes back untouched. -/
theorem acknowledge_open_only_witness :
    wReq.acknowledge 12 = Except.ok { wReq with
      status := Status.acknowledged, acknowledged_at := some 12,
      actual_response_time := some 12, updated_at := 12 } ∧
    wReqResolved.acknowledge 40 = Except.ok wReqResolved :=
  ⟨(acknowledge_open_only wReq 12).1 rfl,
   (acknowledge_open_only wReqResolved 40).2 (by decide)⟩

/-- C4: evaluation at the failing input — `assign_to_staff` on a request
already assigned to one staff member silently overwrites the assignment
with the new staff member and restamps `assigned_at`; no `AlreadyAssigned`
signal exists, and the admin action `assign_to_me` merely filters
already-assigned rows out of its selection without signalling. -/
theorem assign_overwrites_existing_assignment :
    wReqAssigned.assigned_to = some wStaff ∧
    wReqAssigned.assign_to_staff wStaff2 20 = Except.ok { wReqAssigned with
      assigned_to := some wStaff2, assigned_at := some 20,
      status := Status.assigned, updated_at := 20 } ∧
    wReqAssigned.assign_to_staff wStaff2 20 ≠ Except.error OpError.alreadyAssigned ∧
    assign_to_me wStaff2 [wReqAssigned] 20 = ([wReqAssigned], 0) := by
  refine ⟨rfl, rfl, by decide, by decide⟩

/-- C5 counterexample: a second rating on an already-rated resolved request
is accepted and overwrites the stored rating and feedback instead of
signalling `ValidationError`. -/
theorem rate_second_rating_accepted :
    wReqRated.customer_rating = some 5 ∧
    rateRequest wReqRated 4 "changed my mind" = Except.ok
      { wReqRated with customer_rating := some 4, customer_feedback := "changed my mind" } :=
  ⟨rfl, rfl⟩

/-- C5 (amended): `rate` succeeds exactly when the status is `resolved` or
`closed` and the rating is an integer in 1..5 — irrespective of any
previously recorded rating, which it silently overwrites; a status outside
that set or a rating out of range (such as 6) signals `ValidationError`
and leaves the request unmutated. -/
theorem rate_guards (r : Request) (rating : Int) (feedback : String) :
    ((r.status = Status.resolved ∨ r.status = Status.closed) →
      1 ≤ rating → rating ≤ 5 →
      rateRequest r rating feedback = Except.ok
        { r with customer_rating := some rating, customer_feedback := feedback }) ∧
    (¬(r.status = Status.resolved ∨ r.status = Status.closed) →
      rateRequest r rating feedback =
        Except.error (OpError.validationError "Can only rate resolved or closed requests") ∧
      ∀ t : Time, applyOp r (Op.rateOp rating feedback) t = r) ∧
    ((r.status = Status.resolved ∨ r.status = Status.closed) →
      ¬(1 ≤ rating ∧ rating ≤ 5) →
      rateRequest r rating feedback =
        Except.error (OpError.validationError "Rating must be between 1 and 5") ∧
      ∀ t : Time, applyOp r (Op.rateOp rating feedback) t = r) := by
  refine ⟨?_, ?_, ?_⟩
  · intro hs h1 h5
    have hz : ¬(rating = 0 ∨ ¬(1 ≤ rating ∧ rating ≤ 5)) := by omega
    unfold rateRequest
    rw [if_pos hs, if_neg hz]
  · intro hs
    have he : rateRequest r rating feedback =
        Except.error (OpError.validationError "Can only rate resolved or closed requests") := by
      simp [rateRequest, hs]
    exact ⟨he, fun t => by simp [applyOp, he]⟩
  · intro hs hr
    have hz : rating = 0 ∨ ¬(1 ≤ rating ∧ rating ≤ 5) := Or.inr hr
    have he : rateRequest r rating feedback =
        Except.error (OpError.validationError "Rating must be between 1 and 5") := by
      unfold rateRequest
      rw [if_pos hs, if_pos hz]
    exact ⟨he, fun t => by simp [applyOp, he]⟩

/-- Witness for the amended C5: `rate = 6` on a resolved request signals
the out-of-range error and mutates nothing; a valid rating succeeds. -/
theorem rate_guards_witness :
    rateRequest wReqResolved 6 "" =
      Except.error (OpError.validationError "Rating must be between 1 and 5") ∧
    applyOp wReqResolved (Op.rateOp 6 "") 50 = wReqResolved ∧
    rateRequest wReqResolved 5 "great" = Except.ok
      { wReqResolved with customer_rating := some 5, customer_feedback := "great" } := by
  have h6 := (rate_guards wReqResolved 6 "").2.2 (Or.inl rfl) (by omega)
  have h5 := (rate_guards wReqResolved 5 "great").1 (Or.inl rfl) (by omega) (by omega)
  exact ⟨h6.1, h6.2 50, h5⟩

/-! ### C6, C7: comment visibility and timeline shape -/

theorem get_timeline_countP (r : Request) (cs : List Comment) (p : TimelineEvent → Bool) :
    (get_timeline r cs).countP p = (timelineEvents r cs).countP p :=
  (List.perm_insertionSort eventLE _).countP_eq p

theorem timeline_event_counts (r : Request) (cs : List Comment) :
    (get_timeline r cs).countP (fun e => e.event = "created") = 1 ∧
    (get_timeline r cs).countP (fun e => e.event = "acknowledged") =
      (if r.acknowledged_at.isSome then 1 else 0) ∧
    (get_timeline r cs).countP (fun e => e.event = "assigned") =
      (if r.assigned_at.isSome && r.assigned_to.isSome then 1 else 0) ∧
    (get_timeline r cs).countP (fun e => e.event = "resolved") =
      (if r.resolved_at.isSome then 1 else 0) ∧
    (get_timeline r cs).countP (fun e => e.event = "closed") =
      (if r.closed_at.isSome then 1 else 0) ∧
    (get_timeline r cs).countP (fun e => e.event = "comment") =
      (cs.filter (fun c => !c.is_internal)).length := by
  refine ⟨?_, ?_, ?_, ?_, ?_, ?_⟩ <;> rw [get_timeline_countP] <;> unfold timelineEvents <;>
    cases hA : r.acknowledged_at <;> cases hB : r.assigned_at <;> cases hC : r.assigned_to <;>
    cases hD : r.resolved_at <;> cases hE : r.closed_at <;>
    simp [List.countP_append, List.countP_map, List.countP_cons, commentEvent, Function.comp]

theorem mem_timelineEvents_actor (r : Request) (cs : List Comment) (e : TimelineEvent)
    (he : e ∈ timelineEvents r cs) :
    e.actor_type = "customer" ∨ e.actor_type = "staff" ∨ e.actor_type = "system" ∨
    ∃ c ∈ cs, c.is_internal = false ∧ e = commentEvent c := by
  unfold timelineEvents at he
  simp only [List.mem_append] at he
  rcases he with ((((h | h) | h) | h) | h) | h
  · simp only [List.mem_singleton] at h
    subst h; left; rfl
  · cases hA : r.acknowledged_at with
    | none => rw [hA] at h; simp at h
    | some t =>
      rw [hA] at h
      simp only [List.mem_singleton] at h
      subst h; right; left; rfl
  · cases hB : r.assigned_at with
    | none => rw [hB] at h; simp at h
    | some t =>
      cases hC : r.assigned_to with
      | none => rw [hB, hC] at h; simp at h
      | some st =>
        rw [hB, hC] at h
        simp only [List.mem_singleton] at h
        subst h; right; left; rfl
  · cases hD : r.resolved_at with
    | none => rw [hD] at h; simp at h
    | some t =>
      rw [hD] at h
      simp only [List.mem_singleton] at h
      subst h; right; left; rfl
  · cases hE : r.closed_at with
    | none => rw [hE] at h; simp at h
    | some t =>
      rw [hE] at h
      simp only [List.mem_singleton] at h
      subst h; right; right; left; rfl
  · right; right; right
    obtain ⟨c, hcf, hce⟩ := List.mem_map.mp h
    obtain ⟨hcs, hint⟩ := List.mem_filter.mp hcf
    exact ⟨c, hcs, by simpa using hint, hce.symm⟩

/-- C6: internal comments never appear in the customer-facing comment
listing nor in the reconstructed timeline; adding an internal comment
leaves both outputs unchanged, and a request with one internal and one
customer-visible comment shows exactly one comment and one matching
timeline entry. -/
theorem internal_comments_never_visible
    (r : Request) (cs : List Comment) (c c1 c2 : Comment) :
    (∀ d ∈ get_comments cs, d.is_internal = false) ∧
    (c.is_internal = true →
      get_comments (cs ++ [c]) = get_comments cs ∧
      get_timeline r (cs ++ [c]) = get_timeline r cs) ∧
    (c1.is_internal = true → c2.is_internal = false →
      (get_comments [c1, c2]).length = 1 ∧
      (get_timeline r [c1, c2]).countP (fun e => e.event = "comment") = 1 ∧
      commentEvent c2 ∈ get_timeline r [c1, c2]) := by
  refine ⟨?_, ?_, ?_⟩
  · intro d hd
    rw [get_comments, List.mem_insertionSort] at hd
    simpa using (List.mem_filter.mp hd).2
  · intro hint
    have hf : List.filter (fun c => !c.is_internal) (cs ++ [c]) =
        List.filter (fun c => !c.is_internal) cs := by
      simp [List.filter_append, hint]
    constructor
    · unfold get_comments
      rw [hf]
    · unfold get_timeline timelineEvents
      rw [hf]
  · intro h1 h2
    have hf : List.filter (fun c => !c.is_internal) [c1, c2] = [c2] := by
      simp [h1, h2]
    refine ⟨?_, ?_, ?_⟩
    · unfold get_comments
      rw [hf]
      simp
    · rw [(timeline_event_counts r [c1, c2]).2.2.2.2.2, hf]
      rfl
    · rw [get_timeline, List.mem_insertionSort]
      unfold timelineEvents
      rw [hf]
      simp

def wCommentInternal : Comment :=
  { author_customer := none
    author_staff := some wStaff
    comment := "internal note about the valve"
    is_internal := true
    status_changed_from := ""
    status_changed_to := ""
    created_at := 16 }

def wCommentPublic : Comment :=
  { author_customer := some wCust
    author_staff := none
    comment := "any update on this?"
    is_internal := false
    status_changed_from := ""
    status_changed_to := ""
    created_at := 17 }

/-- Witness for C6: one internal plus one customer-visible comment yields
exactly one listed comment and exactly one (matching) timeline comment
entry. -/
theorem internal_comments_never_visible_witness :
    (get_comments [wCommentInternal, wCommentPublic]).length = 1 ∧
    (get_timeline wReq [wCommentInternal, wCommentPublic]).countP
      (fun e => e.event = "comment") = 1 ∧
    commentEvent wCommentPublic ∈ get_timeline wReq [wCommentInternal, wCommentPublic] :=
  (internal_comments_never_visible wReq [] wCommentInternal wCommentInternal
    wCommentPublic).2.2 rfl rfl

/-- C7: the reconstructed timeline is sorted non-decreasing in timestamp,
has exactly one creation event, an acknowledgment/assignment/resolution/
closure event exactly when the corresponding stamps are set, one event per
non-internal comment, every entry's actor type is customer, staff or
system (each comment having an author, per the data-model invariant), and
recomputation from the same state yields the same sequence. -/
theorem timeline_shape (r : Request) (cs : List Comment)
    (h : ∀ c ∈ cs, c.author_customer ≠ none ∨ c.author_staff ≠ none) :
    List.Sorted eventLE (get_timeline r cs) ∧
    (get_timeline r cs).countP (fun e => e.event = "created") = 1 ∧
    (get_timeline r cs).countP (fun e => e.event = "acknowledged") =
      (if r.acknowledged_at.isSome then 1 else 0) ∧
    (get_timeline r cs).countP (fun e => e.event = "assigned") =
      (if r.assigned_at.isSome && r.assigned_to.isSome then 1 else 0) ∧
    (get_timeline r cs).countP (fun e => e.event = "resolved") =
      (if r.resolved_at.isSome then 1 else 0) ∧
    (get_timeline r cs).countP (fun e => e.event = "closed") =
      (if r.closed_at.isSome then 1 else 0) ∧
    (get_timeline r cs).countP (fun e => e.event = "comment") =
      (cs.filter (fun c => !c.is_internal)).length ∧
    (∀ e ∈ get_timeline r cs,
      e.actor_type = "customer" ∨ e.actor_type = "staff" ∨ e.actor_type = "system") ∧
    get_timeline r cs = get_timeline r cs := by
  obtain ⟨k1, k2, k3, k4, k5, k6⟩ := timeline_event_counts r cs
  refine ⟨List.sorted_insertionSort eventLE _, k1, k2, k3, k4, k5, k6, ?_, rfl⟩
  intro e he
  rw [get_timeline, List.mem_insertionSort] at he
  rcases mem_timelineEvents_actor r cs e he with ha | ha | ha | ⟨c, hcs, -, hce⟩
  · exact Or.inl ha
  · exact Or.inr (Or.inl ha)
  · exact Or.inr (Or.inr ha)
  · subst hce
    rcases h c hcs with hcu | hst
    · cases hc : c.author_customer with
      | none => exact absurd hc hcu
      | some cu =>
        left
        simp [commentEvent, Comment.get_author_type, hc]
    · cases hc : c.author_customer with
      | some cu =>
        left
        simp [commentEvent, Comment.get_author_type, hc]
      | none =>
        cases hs : c.author_staff with
        | none => exact absurd hs hst
        | some st =>
          right; left
          simp [commentEvent, Comment.get_author_type, hc, hs]

/-- Witness for C7 at a concrete request with one internal and one public
comment: the timeline is sorted, has one creation event and one comment
event, and no acknowledgment event because `acknowledged_at` is unset. -/
theorem timeline_shape_witness :
    List.Sorted eventLE (get_timeline wReq [wCommentInternal, wCommentPublic]) ∧
    (get_timeline wReq [wCommentInternal, wCommentPublic]).countP
      (fun e => e.event = "created") = 1 ∧
    (get_timeline wReq [wCommentInternal, wCommentPublic]).countP
      (fun e => e.event = "acknowledged") = 0 := by
  have h := timeline_shape wReq [wCommentInternal, wCommentPublic] (by decide)
  exact ⟨h.1, h.2.1, h.2.2.1⟩

/-! ### C8: intake validation -/

theorem fieldErrors_nil_iff (inp : CreateInput) :
    fieldErrors inp = [] ↔
      (5 ≤ (pyStrip inp.title).length ∧ 10 ≤ (pyStrip inp.description).length ∧
       5 ≤ (pyStrip inp.reported_location).length) := by
  unfold fieldErrors
  split <;> split <;> split <;> simp_all

def badInp : CreateInput :=
  { issue_type := IssueType.other
    title := "Valid title"
    description := "A sufficiently long description"
    urgency := none
    reported_location := "Some location"
    latitude := some 100
    longitude := none }

/-- C8 counterexample: an input supplying only `latitude` (here a wildly
out-of-range 100) with no `longitude` is admitted by the validator — no
`ValidationError` is signalled — because the coordinate check runs only
when both members are present. -/
theorem create_admits_unpaired_latitude :
    badInp.latitude = some 100 ∧ badInp.longitude = none ∧
    ¬(-5 ≤ (100 : Rat) ∧ (100 : Rat) ≤ 5) ∧
    validateCreate badInp = Except.ok
      { issue_type := IssueType.other
        title := "Valid title"
        description := "A sufficiently long description"
        urgency := Urgency.standard
        reported_location := "Some location"
        location_coordinates := none } := by
  refine ⟨rfl, rfl, by decide, by rfl⟩

/-- C8 (amended): an input is admitted iff the trimmed title, description
and location meet the 5/10/5 length minima and, whenever both latitude and
longitude are supplied, the pair lies in [-5,5] x [33,42]; an omitted
urgency defaults to `standard`; a supplied pair becomes the stored
coordinate while a missing member leaves coordinates unset with no bounds
check; and on any validation failure `createRequest` signals the per-field
errors and persists nothing. -/
theorem create_validation_characterization (inp : CreateInput) (store : List Request)
    (cust : Customer) (year : Nat) (now : Time) :
    ((∃ v, validateCreate inp = Except.ok v) ↔
      (5 ≤ (pyStrip inp.title).length ∧ 10 ≤ (pyStrip inp.description).length ∧
       5 ≤ (pyStrip inp.reported_location).length ∧
       (∀ lat lng, inp.latitude = some lat → inp.longitude = some lng →
         -5 ≤ lat ∧ lat ≤ 5 ∧ 33 ≤ lng ∧ lng ≤ 42))) ∧
    (∀ v, validateCreate inp = Except.ok v →
      v.urgency = inp.urgency.getD Urgency.standard ∧
      (∀ lat lng, inp.latitude = some lat → inp.longitude = some lng →
        v.location_coordinates = some (lng, lat)) ∧
      ((inp.latitude = none ∨ inp.longitude = none) → v.location_coordinates = none)) ∧
    (∀ e, validateCreate inp = Except.error e →
      createRequest store cust inp year now = (Except.error e, store)) := by
  refine ⟨?_, ?_, ?_⟩
  · unfold validateCreate
    cases hF : decide (fieldErrors inp = []) with
    | false =>
      have hF' : fieldErrors inp ≠ [] := by simpa using hF
      rw [if_pos hF']
      constructor
      · rintro ⟨v, hv⟩
        exact absurd hv (by simp)
      · rintro ⟨h1, h2, h3, -⟩
        exact absurd ((fieldErrors_nil_iff inp).mpr ⟨h1, h2, h3⟩) hF'
    | true =>
      have hF' : fieldErrors inp = [] := by simpa using hF
      rw [if_neg (by simp [hF'])]
      obtain ⟨h1, h2, h3⟩ := (fieldErrors_nil_iff inp).mp hF'
      cases hlat : inp.latitude with
      | none =>
        cases hlng : inp.longitude with
        | none => simp [h1, h2, h3]
        | some lng => simp [h1, h2, h3]
      | some lat =>
        cases hlng : inp.longitude with
        | none => simp [h1, h2, h3]
        | some lng =>
          dsimp only
          by_cases hb1 : -5 ≤ lat ∧ lat ≤ 5
          · by_cases hb2 : 33 ≤ lng ∧ lng ≤ 42
            · rw [if_neg (by simpa using hb1), if_neg (by simpa using hb2)]
              constructor
              · rintro -
                refine ⟨h1, h2, h3, ?_⟩
                rintro la ln hla hln
                cases hla; cases hln
                exact ⟨hb1.1, hb1.2, hb2.1, hb2.2⟩
              · rintro -
                exact ⟨_, rfl⟩
            · rw [if_neg (by simpa using hb1), if_pos (by simpa using hb2)]
              constructor
              · rintro ⟨v, hv⟩
                exact absurd hv (by simp)
              · rintro ⟨-, -, -, hp⟩
                obtain ⟨-, -, g3, g4⟩ := hp lat lng rfl rfl
                exact absurd (And.intro g3 g4) hb2
          · rw [if_pos (by simpa using hb1)]
            constructor
            · rintro ⟨v, hv⟩
              exact absurd hv (by simp)
            · rintro ⟨-, -, -, hp⟩
              obtain ⟨g1, g2, -, -⟩ := hp lat lng rfl rfl
              exact absurd (And.intro g1 g2) hb1
  · intro v hv
    unfold validateCreate at hv
    split at hv
    · exact absurd hv (by simp)
    · split at hv
      · split at hv
        · exact absurd hv (by simp)
        · split at hv
          · exact absurd hv (by simp)
          · cases hv
            refine ⟨rfl, ?_, ?_⟩
            · intro lat lng hla hln
              simp_all
            · intro hor
              rcases hor with hn | hn <;> simp_all
      · cases hv
        refine ⟨rfl, ?_, ?_⟩
        · intro lat lng hla hln
          simp_all
        · rintro -
          rfl
  · intro e he
    unfold createRequest
    rw [he]

def shortInp : CreateInput :=
  { issue_type := IssueType.other
    title := "tap"
    description := "The tap outside is leaking a lot"
    urgency := none
    reported_location := "Front yard tap"
    latitude := none
    longitude := none }

/-- Witness for the amended C8: a 3-character title is rejected with a
field-level error and nothing is persisted, while the valid input used
throughout is admitted. -/
theorem create_validation_characterization_witness :
    createRequest [] wCust shortInp 2025 10 =
      (Except.error [("title", "Title must be at least 5 characters long.")], []) ∧
    (5 ≤ (pyStrip wInp.title).length ∧ 10 ≤ (pyStrip wInp.description).length ∧
     5 ≤ (pyStrip wInp.reported_location).length ∧
     (∀ lat lng, wInp.latitude = some lat → wInp.longitude = some lng →
       -5 ≤ lat ∧ lat ≤ 5 ∧ 33 ≤ lng ∧ lng ≤ 42)) := by
  constructor
  · exact (create_validation_characterization shortInp [] wCust 2025 10).2.2 _ (by rfl)
  · exact (create_validation_characterization wInp [] wCust 2025 10).1.mp ⟨_, by rfl⟩

/-! ### C9: request-number generation -/

/-- Value of a little-endian digit list. -/
def undigits : List Nat → Nat
  | [] => 0
  | d :: ds => d + 10 * undigits ds

theorem digitsRevF_zero (fuel : Nat) : digitsRevF fuel 0 = [] := by
  cases fuel <;> rfl

theorem undigits_digitsRevF (fuel : Nat) :
    ∀ n, n ≤ fuel → undigits (digitsRevF fuel n) = n := by
  induction fuel with
  | zero =>
    intro n h
    have : n = 0 := by omega
    subst this
    rfl
  | succ f ih =>
    intro n h
    unfold digitsRevF
    by_cases hn : n = 0
    · simp [hn, undigits]
    · rw [if_neg hn]
      have hd : n / 10 ≤ f := by
        have h10 : n / 10 < n := Nat.div_lt_self (Nat.pos_of_ne_zero hn) (by omega)
        omega
      simp only [undigits, ih _ hd]
      omega

theorem undigits_digitsRev (n : Nat) : undigits (digitsRev n) = n :=
  undigits_digitsRevF n n le_rfl

theorem digitsRev_inj {a b : Nat} (h : digitsRev a = digitsRev b) : a = b := by
  have ha := undigits_digitsRev a
  rw [h, undigits_digitsRev b] at ha
  exact ha.symm

theorem digitsRevF_lt (fuel : Nat) : ∀ n, ∀ d ∈ digitsRevF fuel n, d < 10 := by
  induction fuel with
  | zero => intro n d hd; simp [digitsRevF] at hd
  | succ f ih =>
    intro n d hd
    unfold digitsRevF at hd
    by_cases hn : n = 0
    · simp [hn] at hd
    · rw [if_neg hn] at hd
      rcases List.mem_cons.mp hd with h | h
      · subst h; exact Nat.mod_lt n (by omega)
      · exact ih _ d h

theorem digitsRevF_reverse_head (fuel : Nat) :
    ∀ n, n ≠ 0 → n ≤ fuel →
      ∃ d ds, (digitsRevF fuel n).reverse = d :: ds ∧ d ≠ 0 ∧ d < 10 := by
  induction fuel with
  | zero => intro n hn h; omega
  | succ f ih =>
    intro n hn h
    unfold digitsRevF
    rw [if_neg hn]
    by_cases hq : n / 10 = 0
    · rw [hq, digitsRevF_zero]
      refine ⟨n % 10, [], by simp, ?_, Nat.mod_lt n (by omega)⟩
      omega
    · have hd : n / 10 ≤ f := by
        have h10 : n / 10 < n := Nat.div_lt_self (Nat.pos_of_ne_zero hn) (by omega)
        omega
      obtain ⟨d, ds, hrev, hd0, hd10⟩ := ih (n / 10) hq hd
      exact ⟨d, ds ++ [n % 10], by simp [hrev], hd0, hd10⟩

theorem digitsRev_reverse_head (n : Nat) (hn : n ≠ 0) :
    ∃ d ds, (digitsRev n).reverse = d :: ds ∧ d ≠ 0 ∧ d < 10 :=
  digitsRevF_reverse_head n n hn le_rfl

theorem map_digitChar_inj (l1 : List Nat) :
    ∀ (l2 : List Nat), (∀ d ∈ l1, d < 10) → (∀ d ∈ l2, d < 10) →
      l1.map Nat.digitChar = l2.map Nat.digitChar → l1 = l2 := by
  induction l1 with
  | nil =>
    intro l2 h1 h2 h
    cases l2 with
    | nil => rfl
    | cons b t => simp at h
  | cons a t1 ih =>
    intro l2 h1 h2 h
    cases l2 with
    | nil => simp at h
    | cons b t2 =>
      simp only [List.map_cons, List.cons.injEq] at h
      have hab : a = b := by
        have da : a < 10 := h1 a (List.mem_cons_self a t1)
        have db : b < 10 := h2 b (List.mem_cons_self b t2)
        revert h
        have : ∀ x, x < 10 → ∀ y, y < 10 →
            Nat.digitChar x = Nat.digitChar y → x = y := by decide
        intro h
        exact this a da b db h.1
      subst hab
      have := ih t2 (fun d hd => h1 d (List.mem_cons_of_mem a hd))
        (fun d hd => h2 d (List.mem_cons_of_mem a hd)) h.2
      rw [this]

theorem decString_data_of_ne (n : Nat) (hn : n ≠ 0) :
    ∃ d ds, (decString n).data = Nat.digitChar d :: ds.map Nat.digitChar ∧
      d ≠ 0 ∧ d < 10 ∧ d :: ds = (digitsRev n).reverse := by
  obtain ⟨d, ds, hrev, hd0, hd10⟩ := digitsRev_reverse_head n hn
  refine ⟨d, ds, ?_, hd0, hd10, hrev.symm⟩
  unfold decString
  rw [if_neg hn]
  show ((digitsRev n).reverse.map Nat.digitChar) = _
  rw [hrev]
  rfl

theorem dropWhile_replicate_zero (k : Nat) (l : List Char) :
    List.dropWhile (fun c => c == '0') (List.replicate k '0' ++ l) =
      List.dropWhile (fun c => c == '0') l := by
  induction k with
  | zero => simp
  | succ k ih => simp [List.replicate_succ, List.dropWhile_cons, ih]

theorem decString_inj {a b : Nat} (ha : a ≠ 0) (hb : b ≠ 0)
    (h : (decString a).data = (decString b).data) : a = b := by
  obtain ⟨da, dsa, hda, ha0, ha10, hra⟩ := decString_data_of_ne a ha
  obtain ⟨db, dsb, hdb, hb0, hb10, hrb⟩ := decString_data_of_ne b hb
  rw [hda, hdb] at h
  have hrev : (digitsRev a).reverse = (digitsRev b).reverse := by
    rw [← hra, ← hrb]
    have hmap : (da :: dsa).map Nat.digitChar = (db :: dsb).map Nat.digitChar := by
      simpa using h
    refine map_digitChar_inj _ _ ?_ ?_ hmap
    · intro d hd
      have : d ∈ (digitsRev a).reverse := by rw [← hra]; exact hd
      exact digitsRevF_lt a a d (List.mem_reverse.mp this)
    · intro d hd
      have : d ∈ (digitsRev b).reverse := by rw [← hrb]; exact hd
      exact digitsRevF_lt b b d (List.mem_reverse.mp this)
  exact digitsRev_inj (List.reverse_injective hrev)

theorem pad5_data (n : Nat) :
    (pad5 n).data =
      List.replicate (5 - (decString n).length) '0' ++ (decString n).data := by
  unfold pad5
  dsimp only
  split
  · rfl
  · rename_i hlen
    have : 5 - (decString n).length = 0 := by omega
    rw [this]
    rfl

theorem pad5_inj {a b : Nat} (ha : a ≠ 0) (hb : b ≠ 0) (h : pad5 a = pad5 b) : a = b := by
  have hd : (pad5 a).data = (pad5 b).data := by rw [h]
  rw [pad5_data, pad5_data] at hd
  obtain ⟨da, dsa, hda, ha0, ha10, -⟩ := decString_data_of_ne a ha
  obtain ⟨db, dsb, hdb, hb0, hb10, -⟩ := decString_data_of_ne b hb
  have hwa := dropWhile_replicate_zero (5 - (decString a).length) (decString a).data
  have hwb := dropWhile_replicate_zero (5 - (decString b).length) (decString b).data
  have hza : Nat.digitChar da ≠ '0' := by
    revert ha0
    have : ∀ x, x < 10 → x ≠ 0 → Nat.digitChar x ≠ '0' := by decide
    exact this da ha10
  have hzb : Nat.digitChar db ≠ '0' := by
    revert hb0
    have : ∀ x, x < 10 → x ≠ 0 → Nat.digitChar x ≠ '0' := by decide
    exact this db hb10
  have hea : List.dropWhile (fun c => c == '0')
      (List.replicate (5 - (decString a).length) '0' ++ (decString a).data) =
      (decString a).data := by
    rw [hwa, hda, List.dropWhile_cons]
    simp [hza]
  have heb : List.dropWhile (fun c => c == '0')
      (List.replicate (5 - (decString b).length) '0' ++ (decString b).data) =
      (decString b).data := by
    rw [hwb, hdb, List.dropWhile_cons]
    simp [hzb]
  have : (decString a).data = (decString b).data := by
    rw [← hea, ← heb, hd]
  exact decString_inj ha hb this

theorem requestNumber_inj (year : Nat) {a b : Nat} (ha : a ≠ 0) (hb : b ≠ 0)
    (h : requestNumber year a = requestNumber year b) : a = b := by
  apply pad5_inj ha hb
  have hd : (requestNumber year a).data = (requestNumber year b).data := by rw [h]
  unfold requestNumber at hd
  simp only [String.data_append, List.append_assoc] at hd
  have := List.append_cancel_left (List.append_cancel_left (List.append_cancel_left hd))
  exact String.ext this

theorem digitsRevF_length (fuel : Nat) :
    ∀ n k, n ≤ fuel → n < 10 ^ k → (digitsRevF fuel n).length ≤ k := by
  induction fuel with
  | zero =>
    intro n k h hk
    have : n = 0 := by omega
    subst this
    simp [digitsRevF_zero]
  | succ f ih =>
    intro n k h hk
    unfold digitsRevF
    by_cases hn : n = 0
    · simp [hn]
    · rw [if_neg hn]
      cases k with
      | zero =>
        simp only [pow_zero] at hk
        omega
      | succ k' =>
        have h10 : n / 10 < n := Nat.div_lt_self (Nat.pos_of_ne_zero hn) (by omega)
        have hq : n / 10 ≤ f := by omega
        have hk' : n / 10 < 10 ^ k' := by
          rw [Nat.div_lt_iff_lt_mul (by omega)]
          calc n < 10 ^ (k' + 1) := hk
          _ = 10 ^ k' * 10 := by ring
        have := ih (n / 10) k' hq hk'
        simp only [List.length_cons]
        omega

theorem pad5_length (s : Nat) (hs : s < 100000) : (pad5 s).length = 5 := by
  have hlen : (decString s).length ≤ 5 := by
    unfold decString
    by_cases h0 : s = 0
    · rw [if_pos h0]
      decide
    · rw [if_neg h0]
      show ((digitsRev s).reverse.map Nat.digitChar).length ≤ 5
      rw [List.length_map, List.length_reverse]
      exact digitsRevF_length s s 5 le_rfl (by omega)
  unfold pad5
  dsimp only
  split
  · rename_i h
    show (List.replicate (5 - (decString s).length) '0' ++ (decString s).data).length = 5
    rw [List.length_append, List.length_replicate]
    have hdl : (decString s).data.length = (decString s).length := rfl
    omega
  · omega

theorem requestNumber_startsWith (year s : Nat) :
    pyStartsWith (requestNumber year s) ("SR-" ++ decString year) = true := by
  unfold pyStartsWith requestNumber
  apply List.isPrefixOf_iff_prefix.mpr
  simp only [String.data_append, List.append_assoc]
  exact ⟨"-".data ++ (pad5 s).data, rfl⟩

theorem countYear_append (year : Nat) (store : List Request) (r : Request) :
    countYear year (store ++ [r]) =
      countYear year store +
        (if pyStartsWith r.request_number ("SR-" ++ decString year) then 1 else 0) := by
  unfold countYear
  rw [List.countP_append]
  simp [List.countP_cons]

theorem createRequest_number (store : List Request) (cust : Customer) (inp : CreateInput)
    (year : Nat) (now : Time) (r : Request) (s' : List Request)
    (h : createRequest store cust inp year now = (Except.ok r, s')) :
    r.request_number = requestNumber year (countYear year store + 1) ∧ s' = store ++ [r] := by
  obtain ⟨v, hv, hr, hs⟩ := createRequest_ok store cust inp year now r s' h
  have p8 := (save_spec (draftRequest cust v now) year (countYear year store) now).2.2.2.2.2.2.2.1
  refine ⟨?_, hs⟩
  rw [hr, p8]
  simp [draftRequest]

/-- A sequence of `createRequest` calls against an evolving store: returns
the final store and the list of successfully persisted requests in
creation order (a failed validation persists nothing). -/
def runCreates (year : Nat) (cust : Customer) :
    List Request → List (CreateInput × Time) → List Request × List Request
  | store, [] => (store, [])
  | store, (inp, t) :: rest =>
    match createRequest store cust inp year t with
    | (Except.ok r, store') =>
      ((runCreates year cust store' rest).1, r :: (runCreates year cust store' rest).2)
    | (Except.error _, store') => runCreates year cust store' rest

theorem createRequest_error_store (store : List Request) (cust : Customer)
    (inp : CreateInput) (year : Nat) (now : Time) (e : List (String × String))
    (s' : List Request) (h : createRequest store cust inp year now = (Except.error e, s')) :
    s' = store := by
  unfold createRequest at h
  cases hv : validateCreate inp <;> rw [hv] at h <;> simp_all

theorem runCreates_numbers (year : Nat) (cust : Customer)
    (inps : List (CreateInput × Time)) :
    ∀ store : List Request,
      ((runCreates year cust store inps).2.map (fun r => r.request_number)) =
        (List.range (runCreates year cust store inps).2.length).map
          (fun i => requestNumber year (countYear year store + i + 1)) := by
  induction inps with
  | nil => intro store; simp [runCreates]
  | cons p rest ih =>
    intro store
    rcases p with ⟨inp, t⟩
    unfold runCreates
    cases hc : createRequest store cust inp year t with
    | mk exc store' =>
      cases exc with
      | error e =>
        dsimp only
        rw [createRequest_error_store store cust inp year t e store' hc]
        exact ih store
      | ok r =>
        obtain ⟨hnum, hs⟩ := createRequest_number store cust inp year t r store' hc
        have hcy : countYear year store' = countYear year store + 1 := by
          rw [hs, countYear_append, hnum, requestNumber_startsWith]
          simp
        dsimp only
        simp only [List.map_cons, List.length_cons, List.range_succ_eq_map, List.map_map]
        have hhead : r.request_number =
            requestNumber year (countYear year store + 0 + 1) := by
          rw [hnum]
        have htail : List.map (fun r => r.request_number) (runCreates year cust store' rest).2 =
            List.map ((fun i => requestNumber year (countYear year store + i + 1)) ∘ Nat.succ)
              (List.range (runCreates year cust store' rest).2.length) := by
          rw [ih store', hcy]
          refine List.map_congr_left ?_
          intro i hi
          simp only [Function.comp]
          congr 1
          omega
        rw [hhead, htail]

theorem runCreates_nodup (year : Nat) (cust : Customer) (store : List Request)
    (inps : List (CreateInput × Time)) :
    ((runCreates year cust store inps).2.map (fun r => r.request_number)).Nodup := by
  rw [runCreates_numbers]
  refine List.Nodup.map_on ?_ (List.nodup_range _)
  intro i hi j hj hij
  have := requestNumber_inj year (by omega) (by omega) hij
  omega

theorem applyOp_number (r : Request) (op : Op) (t : Time) (h : r.request_number ≠ "") :
    (applyOp r op t).request_number = r.request_number := by
  cases op with
  | ackOp =>
    by_cases hs : r.status = Status.open_ <;> simp [applyOp, Request.acknowledge, hs]
  | assignOp st => rfl
  | resolveOp a b => rfl
  | closeOp => rfl
  | rateOp a b =>
    simp only [applyOp]
    cases hr : rateRequest r a b with
    | error e => rfl
    | ok r' =>
      unfold rateRequest at hr
      split at hr
      · split at hr
        · exact absurd hr (by simp)
        · cases hr; rfl
      · exact absurd hr (by simp)
  | resaveOp y c =>
    have p8 := (save_spec r y c t).2.2.2.2.2.2.2.1
    simp only [applyOp]
    rw [p8, if_neg h]

theorem applyOps_number (ops : List (Op × Time)) :
    ∀ r : Request, r.request_number ≠ "" →
      (applyOps r ops).request_number = r.request_number := by
  induction ops with
  | nil => intro r h; rfl
  | cons p ps ih =>
    intro r h
    rw [applyOps_cons]
    have h1 := applyOp_number r p.1 p.2 h
    rw [ih _ (by rw [h1]; exact h), h1]

/-- C9: against any initial store, a sequence of creations in year `year`
persists request numbers `SR-<year>-<seq>` with zero-padded sequence
numbers `count+1, count+2, ...` — strictly increasing in creation order —
which are pairwise distinct (never reused); the sequence part is exactly
five digits up to 99999; and once a request carries a number, no later
operation or re-save ever changes it.  Each creation is one atomic unit of
work (spec §5). -/
theorem request_numbers_unique_and_increasing (year : Nat) (cust : Customer)
    (store : List Request) (inps : List (CreateInput × Time)) :
    ((runCreates year cust store inps).2.map (fun r => r.request_number)) =
      (List.range (runCreates year cust store inps).2.length).map
        (fun i => requestNumber year (countYear year store + i + 1)) ∧
    ((runCreates year cust store inps).2.map (fun r => r.request_number)).Nodup ∧
    (∀ (r : Request) (ops : List (Op × Time)), r.request_number ≠ "" →
      (applyOps r ops).request_number = r.request_number) ∧
    (∀ s : Nat, s < 100000 → (pad5 s).length = 5) ∧
    (∀ a b : Nat, a ≠ 0 → b ≠ 0 →
      requestNumber year a = requestNumber year b → a = b) :=
  ⟨runCreates_numbers year cust inps store,
   runCreates_nodup year cust store inps,
   fun r ops h => applyOps_number ops r h,
   fun s hs => pad5_length s hs,
   fun _ _ ha hb h => requestNumber_inj year ha hb h⟩

/-- Witness for C9: two concrete creations in 2025 get numbers
`SR-2025-00001` and `SR-2025-00002`, distinct; the number survives a
close and a re-save; and the padding is five digits. -/
theorem request_numbers_unique_and_increasing_witness :
    ((runCreates 2025 wCust [] [(wInp, 10), (wInp, 20)]).2.map
      (fun r => r.request_number)) = ["SR-2025-00001", "SR-2025-00002"] ∧
    ((runCreates 2025 wCust [] [(wInp, 10), (wInp, 20)]).2.map
      (fun r => r.request_number)).Nodup ∧
    (applyOps wReq [(Op.closeOp, 20), (Op.resaveOp 2025 1, 30)]).request_number =
      wReq.request_number ∧
    (pad5 1).length = 5 := by
  have h := request_numbers_unique_and_increasing 2025 wCust [] [(wInp, 10), (wInp, 20)]
  refine ⟨?_, h.2.1, h.2.2.1 wReq [(Op.closeOp, 20), (Op.resaveOp 2025 1, 30)] (by decide),
    h.2.2.2.1 1 (by omega)⟩
  rw [h.1]
  rfl

/-! ### C10: statistics -/

/-- C10: `statistics` counts every request of the customer in
`total_requests`, counts a request in `open_requests` exactly when its
status is open/acknowledged/assigned/in_progress, and in
`resolved_requests` exactly when it is resolved/closed; an `on_hold` or
`cancelled` request of the customer raises the total by one and neither
other counter; an empty store yields all-zero counts. -/
theorem statistics_counts (store : List Request) (cust : Customer) (now : Time)
    (r : Request) :
    (statistics (store ++ [r]) cust now).total_requests =
      (statistics store cust now).total_requests +
        (if r.customer = cust then 1 else 0) ∧
    (statistics (store ++ [r]) cust now).open_requests =
      (statistics store cust now).open_requests +
        (if r.customer = cust ∧ (r.status = Status.open_ ∨ r.status = Status.acknowledged ∨
          r.status = Status.assigned ∨ r.status = Status.in_progress) then 1 else 0) ∧
    (statistics (store ++ [r]) cust now).resolved_requests =
      (statistics store cust now).resolved_requests +
        (if r.customer = cust ∧ (r.status = Status.resolved ∨ r.status = Status.closed)
          then 1 else 0) ∧
    (r.customer = cust → (r.status = Status.on_hold ∨ r.status = Status.cancelled) →
      (statistics (store ++ [r]) cust now).total_requests =
        (statistics store cust now).total_requests + 1 ∧
      (statistics (store ++ [r]) cust now).open_requests =
        (statistics store cust now).open_requests ∧
      (statistics (store ++ [r]) cust now).resolved_requests =
        (statistics store cust now).resolved_requests) ∧
    statistics [] cust now =
      { total_requests := 0, open_requests := 0, resolved_requests := 0,
        recent_updates := 0 } := by
  have h1 : (statistics (store ++ [r]) cust now).total_requests =
      (statistics store cust now).total_requests +
        (if r.customer = cust then 1 else 0) := by
    simp only [statistics, List.filter_append, List.length_append, List.filter_cons,
      List.filter_nil]
    by_cases hc : r.customer = cust <;> simp [hc]
  have h2 : (statistics (store ++ [r]) cust now).open_requests =
      (statistics store cust now).open_requests +
        (if r.customer = cust ∧ (r.status = Status.open_ ∨ r.status = Status.acknowledged ∨
          r.status = Status.assigned ∨ r.status = Status.in_progress) then 1 else 0) := by
    simp only [statistics, List.filter_append, List.length_append, List.filter_cons,
      List.filter_nil]
    by_cases hc : r.customer = cust ∧ (r.status = Status.open_ ∨
        r.status = Status.acknowledged ∨ r.status = Status.assigned ∨
        r.status = Status.in_progress) <;> simp [hc]
  have h3 : (statistics (store ++ [r]) cust now).resolved_requests =
      (statistics store cust now).resolved_requests +
        (if r.customer = cust ∧ (r.status = Status.resolved ∨ r.status = Status.closed)
          then 1 else 0) := by
    simp only [statistics, List.filter_append, List.length_append, List.filter_cons,
      List.filter_nil]
    by_cases hc : r.customer = cust ∧ (r.status = Status.resolved ∨
        r.status = Status.closed) <;> simp [hc]
  refine ⟨h1, h2, h3, ?_, by simp [statistics]⟩
  intro hc hs
  refine ⟨?_, ?_, ?_⟩
  · rw [h1, if_pos hc]
  · have hne : ¬(r.customer = cust ∧ (r.status = Status.open_ ∨
        r.status = Status.acknowledged ∨ r.status = Status.assigned ∨
        r.status = Status.in_progress)) := by
      rintro ⟨-, hbad⟩
      rcases hs with h | h <;> rw [h] at hbad <;> rcases hbad with h' | h' | h' | h' <;>
        exact Status.noConfusion h'
    rw [h2, if_neg hne]
    exact Nat.add_zero _
  · have hne : ¬(r.customer = cust ∧ (r.status = Status.resolved ∨
        r.status = Status.closed)) := by
      rintro ⟨-, hbad⟩
      rcases hs with h | h <;> rw [h] at hbad <;> rcases hbad with h' | h' <;>
        exact Status.noConfusion h'
    rw [h3, if_neg hne]
    exact Nat.add_zero _

/-- Witness for C10: a lone `on_hold` request of the customer counts in the
total but in neither `open_requests` nor `resolved_requests`; the empty
store yields zeros. -/
theorem statistics_counts_witness :
    (statistics [{ wReq with status := Status.on_hold }] wCust 10).total_requests = 1 ∧
    (statistics [{ wReq with status := Status.on_hold }] wCust 10).open_requests = 0 ∧
    (statistics [{ wReq with status := Status.on_hold }] wCust 10).resolved_requests = 0 ∧
    statistics [] wCust 10 =
      { total_requests := 0, open_requests := 0, resolved_requests := 0,
        recent_updates := 0 } := by
  have h := statistics_counts [] wCust 10 { wReq with status := Status.on_hold }
  have hz := h.2.2.2.2
  obtain ⟨g1, g2, g3⟩ := h.2.2.2.1 rfl (Or.inl rfl)
  rw [hz] at g1 g2 g3
  exact ⟨by rw [List.nil_append] at g1; rw [g1], by rw [List.nil_append] at g2; rw [g2],
    by rw [List.nil_append] at g3; rw [g3], hz⟩

end AccessWash
